import Mathlib

/-!
# Verification of the gphoto binding layer (`src/camera.rs`, `src/media.rs`, `src/port.rs`)

A shallow embedding of the binding layer over libgphoto2.  Native-layer calls
(out of scope for the repository, accessed through the contract given in the
design document) are modelled either by explicit result parameters (a status
code the native call returned, a buffer it filled) or by small executable
models of their documented behaviour (bounds-checked list accessors, the
POSIX exclusive-create open).  Byte strings are `List Nat`; machine integer
casts are made explicit with `% 2 ^ 32` arithmetic (64-bit `usize`, 32-bit
`c_int`).
-/

namespace Gphoto

/-- Bytes of a C string (the bytes before the terminating NUL). -/
abbrev Bytes := List Nat

/-! ## Native status codes (libgphoto2 `gphoto2-port-result.h` / `gphoto2-result.h`) -/

def GP_OK : Int := 0
def GP_ERROR : Int := -1
def GP_ERROR_BAD_PARAMETERS : Int := -2
def GP_ERROR_UNKNOWN_PORT : Int := -5
def GP_ERROR_NOT_SUPPORTED : Int := -6
def GP_ERROR_IO : Int := -7
def GP_ERROR_CORRUPTED_DATA : Int := -102
def GP_ERROR_FILE_EXISTS : Int := -103

/-- The closed error taxonomy of the binding (design document section 7). -/
inductive ErrorKind where
  | BadParameters : ErrorKind
  | FileExists : ErrorKind
  | NotSupported : ErrorKind
  | CorruptedData : ErrorKind
  | NotFound : ErrorKind
  | IoFailure : Int → ErrorKind
deriving DecidableEq, Repr

/-- Modelled from the spec: the error translator (`error::from_libgphoto2`,
whose module is not under `src/`): maps a native status code to one kind of
the closed taxonomy; any code without a dedicated kind becomes
`IoFailure code`. -/
def from_libgphoto2 (code : Int) : ErrorKind :=
  if code = GP_ERROR_BAD_PARAMETERS then .BadParameters
  else if code = GP_ERROR_FILE_EXISTS then .FileExists
  else if code = GP_ERROR_NOT_SUPPORTED then .NotSupported
  else if code = GP_ERROR_CORRUPTED_DATA then .CorruptedData
  else if code = GP_ERROR_UNKNOWN_PORT then .NotFound
  else .IoFailure code

/-- Modelled from the spec: the checked-call helper (the `try_unsafe!` macro
of `lib.rs`, not under `src/`): a non-OK native status code always becomes an
error value returned to the caller. -/
def checkedCall (status : Int) : Except ErrorKind Unit :=
  if status = GP_OK then .ok () else .error (from_libgphoto2 status)

/-! ## UTF-8 validation (Rust `String::from_utf8` / `core::str` validation) -/

/-- A UTF-8 continuation byte: `0x80 ..= 0xBF`. -/
def utf8Cont (c : Nat) : Bool := 0x80 ≤ c && c ≤ 0xBF

/-- Constraint on the first continuation byte of a three-byte sequence
(excludes overlong encodings after `0xE0` and surrogates after `0xED`). -/
def utf8Cont3 (b c1 : Nat) : Bool :=
  if b = 0xE0 then 0xA0 ≤ c1 && c1 ≤ 0xBF
  else if b = 0xED then 0x80 ≤ c1 && c1 ≤ 0x9F
  else utf8Cont c1

/-- Constraint on the first continuation byte of a four-byte sequence
(excludes overlong encodings after `0xF0` and values above U+10FFFF after
`0xF4`). -/
def utf8Cont4 (b c1 : Nat) : Bool :=
  if b = 0xF0 then 0x90 ≤ c1 && c1 ≤ 0xBF
  else if b = 0xF4 then 0x80 ≤ c1 && c1 ≤ 0x8F
  else utf8Cont c1

/-- Validity of a byte sequence as UTF-8, mirroring the validation performed
by Rust's `String::from_utf8`. -/
def validUtf8 : Bytes → Bool
  | [] => true
  | b :: rest =>
    if b < 0x80 then validUtf8 rest
    else if b < 0xC2 then false
    else if b ≤ 0xDF then
      match rest with
      | c1 :: r => utf8Cont c1 && validUtf8 r
      | [] => false
    else if b ≤ 0xEF then
      match rest with
      | c1 :: c2 :: r => utf8Cont3 b c1 && utf8Cont c2 && validUtf8 r
      | _ => false
    else if b ≤ 0xF4 then
      match rest with
      | c1 :: c2 :: c3 :: r =>
        utf8Cont4 b c1 && utf8Cont c2 && utf8Cont c3 && validUtf8 r
      | _ => false
    else false

/-- UTF-8 bytes of U+FFFD REPLACEMENT CHARACTER. -/
def replacementChar : Bytes := [0xEF, 0xBF, 0xBD]

/-- Lossy UTF-8 decoding, mirroring Rust `String::from_utf8_lossy` /
`CStr::to_string_lossy`: each maximal ill-formed subpart is replaced by
U+FFFD and decoding resumes after it.  The result is the byte string of the
produced Rust `String`. -/
def toStringLossy : Bytes → Bytes
  | [] => []
  | b :: rest =>
    if b < 0x80 then b :: toStringLossy rest
    else if b < 0xC2 then replacementChar ++ toStringLossy rest
    else if b ≤ 0xDF then
      match rest with
      | c1 :: r =>
        if utf8Cont c1 then b :: c1 :: toStringLossy r
        else replacementChar ++ toStringLossy (c1 :: r)
      | [] => replacementChar
    else if b ≤ 0xEF then
      match rest with
      | [] => replacementChar
      | c1 :: rest1 =>
        if utf8Cont3 b c1 then
          match rest1 with
          | [] => replacementChar
          | c2 :: rest2 =>
            if utf8Cont c2 then b :: c1 :: c2 :: toStringLossy rest2
            else replacementChar ++ toStringLossy (c2 :: rest2)
        else replacementChar ++ toStringLossy (c1 :: rest1)
    else if b ≤ 0xF4 then
      match rest with
      | [] => replacementChar
      | c1 :: rest1 =>
        if utf8Cont4 b c1 then
          match rest1 with
          | [] => replacementChar
          | c2 :: rest2 =>
            if utf8Cont c2 then
              match rest2 with
              | [] => replacementChar
              | c3 :: rest3 =>
                if utf8Cont c3 then b :: c1 :: c2 :: c3 :: toStringLossy rest3
                else replacementChar ++ toStringLossy (c3 :: rest3)
            else replacementChar ++ toStringLossy (c2 :: rest2)
        else replacementChar ++ toStringLossy (c1 :: rest1)
    else replacementChar ++ toStringLossy rest

/-! ## Camera text retrieval (`src/camera.rs`, `mod util` and the three text
getters) -/

/-- The C-string contents of a native `CameraText` buffer: the bytes before
the first NUL, as read by `CStr::from_ptr(..).to_bytes()`. -/
def cameraTextBytes (buffer : Bytes) : Bytes := buffer.takeWhile (· ≠ 0)

/-- `util::camera_text_to_string` (camera.rs:295): take the NUL-terminated
bytes of the buffer and run `String::from_utf8` on them; a UTF-8 failure is
mapped to the `GP_ERROR_CORRUPTED_DATA` error.  A Rust `String` is
represented by its bytes. -/
def camera_text_to_string (buffer : Bytes) : Except ErrorKind Bytes :=
  let bytes := cameraTextBytes buffer
  if validUtf8 bytes then .ok bytes
  else .error (from_libgphoto2 GP_ERROR_CORRUPTED_DATA)

/-- Result of a native call that fills a `CameraText` buffer: either a non-OK
status code or the filled buffer. -/
abbrev NativeText := Except Int Bytes

/-- `Camera::summary` (camera.rs:151): `try_unsafe!` on the native status of
`gp_camera_get_summary`, then `util::camera_text_to_string` on the buffer. -/
def Camera.summary (native : NativeText) : Except ErrorKind Bytes :=
  match native with
  | .error code => .error (from_libgphoto2 code)
  | .ok buffer => camera_text_to_string buffer

/-- `Camera::manual` (camera.rs:169): same shape as `summary` over
`gp_camera_get_manual`. -/
def Camera.manual (native : NativeText) : Except ErrorKind Bytes :=
  match native with
  | .error code => .error (from_libgphoto2 code)
  | .ok buffer => camera_text_to_string buffer

/-- `Camera::about_driver` (camera.rs:187): same shape as `summary` over
`gp_camera_get_about`. -/
def Camera.about_driver (native : NativeText) : Except ErrorKind Bytes :=
  match native with
  | .error code => .error (from_libgphoto2 code)
  | .ok buffer => camera_text_to_string buffer

/-! ## CameraList (`src/camera.rs`, the `CameraList` wrapper) -/

/-- Contents of a native `CameraList`: (name, value) pairs in discovery
order.  The name is the human device label, the value the port identifier
string. -/
abbrev NativeCameraList := List (Bytes × Bytes)

/-- Modelled from the spec: the native accessor `gp_list_count` for the
out-of-scope native library; always the non-negative entry count. -/
def gp_list_count (l : NativeCameraList) : Int := l.length

/-- Modelled from the spec: the native accessor `gp_list_get_name`, which is
bounds-checked by the native layer — an out-of-range index is reported as a
non-OK status, never a crash.  In range it yields the name field of the
entry. -/
def gp_list_get_name (l : NativeCameraList) (i : Int) : Except Int Bytes :=
  if 0 ≤ i ∧ i < (l.length : Int) then .ok ((l.getD i.toNat ([], [])).1)
  else .error GP_ERROR_BAD_PARAMETERS

/-- Modelled from the spec: the native accessor `gp_list_get_value`, the
value-field counterpart of `gp_list_get_name`. -/
def gp_list_get_value (l : NativeCameraList) (i : Int) : Except Int Bytes :=
  if 0 ≤ i ∧ i < (l.length : Int) then .ok ((l.getD i.toNat ([], [])).2)
  else .error GP_ERROR_BAD_PARAMETERS

/-- The Rust cast `i as libc::c_int` on a 64-bit platform: truncate the
`usize` to its low 32 bits and reinterpret them as a signed 32-bit value. -/
def usizeToCInt (i : Nat) : Int :=
  let m : Nat := i % 2 ^ 32
  if m < 2 ^ 31 then (m : Int) else (m : Int) - 2 ^ 32

/-- `CameraList::name_cstr` (camera.rs:237): cast the index to `c_int`, call
`gp_list_get_name` through `try_unsafe!`, and return the C string. -/
def CameraList.name_cstr (l : NativeCameraList) (i : Nat) : Except ErrorKind Bytes :=
  match gp_list_get_name l (usizeToCInt i) with
  | .ok s => .ok s
  | .error code => .error (from_libgphoto2 code)

/-- `CameraList::name` (camera.rs:246): `name_cstr` followed by
`CStr::to_string_lossy`. -/
def CameraList.name (l : NativeCameraList) (i : Nat) : Except ErrorKind Bytes :=
  (CameraList.name_cstr l i).map toStringLossy

/-- `CameraList::value_cstr` (camera.rs:255): cast the index to `c_int` and
call `gp_list_get_name` (sic — the source calls the name accessor, not
`gp_list_get_value`) through `try_unsafe!`. -/
def CameraList.value_cstr (l : NativeCameraList) (i : Nat) : Except ErrorKind Bytes :=
  match gp_list_get_name l (usizeToCInt i) with
  | .ok s => .ok s
  | .error code => .error (from_libgphoto2 code)

/-- `CameraList::value` (camera.rs:264): `value_cstr` followed by
`CStr::to_string_lossy`. -/
def CameraList.value (l : NativeCameraList) (i : Nat) : Except ErrorKind Bytes :=
  (CameraList.value_cstr l i).map toStringLossy

/-- `CameraList::len` (camera.rs:224) over the count the native
`gp_list_count` call returned: a negative count hits the `panic!()` branch,
modelled as `none`; otherwise the count is returned as `usize`. -/
def CameraList.lenFromCount (count : Int) : Option Nat :=
  if count < 0 then none else some count.toNat

/-- `CameraList::len` applied to the modelled native list. -/
def CameraList.len (l : NativeCameraList) : Option Nat :=
  CameraList.lenFromCount (gp_list_count l)

/-! ## PortList (`src/port.rs`) -/

/-- Contents of a native `GPPortInfoList`: (name, path) pairs. -/
abbrev PortListState := List (Bytes × Bytes)

/-- `PortList::lookup_name` (port.rs:148).  `nativeIdx` is the value the
native `gp_port_info_list_lookup_name` call would return (a position index
when non-negative, a status code when negative).  The result records the
receiver state, whether the native layer was invoked, and the returned
value: a name containing a NUL byte fails `CString::new` and returns
`BadParameters` before any native call. -/
def PortList.lookup_name (s : PortListState) (name : Bytes) (nativeIdx : Int) :
    PortListState × Bool × Except ErrorKind Nat :=
  if name.contains 0 then
    (s, false, .error (from_libgphoto2 GP_ERROR_BAD_PARAMETERS))
  else if 0 ≤ nativeIdx then (s, true, .ok nativeIdx.toNat)
  else (s, true, .error (from_libgphoto2 nativeIdx))

/-- `PortList::lookup_path` (port.rs:168): same shape as `lookup_name` over
`gp_port_info_list_lookup_path`. -/
def PortList.lookup_path (s : PortListState) (path : Bytes) (nativeIdx : Int) :
    PortListState × Bool × Except ErrorKind Nat :=
  if path.contains 0 then
    (s, false, .error (from_libgphoto2 GP_ERROR_BAD_PARAMETERS))
  else if 0 ≤ nativeIdx then (s, true, .ok nativeIdx.toNat)
  else (s, true, .error (from_libgphoto2 nativeIdx))

/-- `PortList::len` (port.rs:189) over the count returned by the native
`gp_port_info_list_count` call: negative hits `panic!()` (`none`). -/
def PortList.lenFromCount (count : Int) : Option Nat :=
  if count < 0 then none else some count.toNat

/-- `PortList::new` (port.rs:127) over the native `gp_port_info_list_new`
status. -/
def PortList.new (status : Int) (handle : Nat) : Except ErrorKind Nat :=
  if status = GP_OK then .ok handle else .error (from_libgphoto2 status)

/-- `PortList::load` (port.rs:139) over the native `gp_port_info_list_load`
status. -/
def PortList.load (status : Int) : Except ErrorKind Unit := checkedCall status

/-! ## FileMedia (`src/media.rs`) -/

/-- The in-scope part of a disk state: an association list from paths (byte
strings) to file contents (byte strings). -/
structure FS where
  files : List (Bytes × Bytes)
deriving DecidableEq, Repr

/-- First binding of a path in an association list. -/
def fsFind : List (Bytes × Bytes) → Bytes → Option Bytes
  | [], _ => none
  | (q, c) :: rest, p => if q = p then some c else fsFind rest p

/-- Contents stored at a path, if the path exists. -/
def FS.lookup (fs : FS) (p : Bytes) : Option Bytes := fsFind fs.files p

/-- A `FileMedia` sink; it owns the descriptor of the file it was created
over. -/
structure FileMedia where
  fd : Nat
deriving DecidableEq, Repr

/-- `FileMedia::create` (media.rs:40).  `fd` is the descriptor the kernel
hands out for a successful `open`; `gpStatus` is the status of the native
`gp_file_new_from_fd` call reached through `from_raw_fd`.  Steps of the
source: `CString::new` rejects paths with an embedded NUL with
`BadParameters` (no OS or native call); `libc::open` with
`O_CREAT|O_EXCL|O_RDWR` fails on an existing path, mapped to `FileExists`
(native layer not invoked, disk unchanged); otherwise the file is created
empty and the descriptor is passed to the native layer.  The `Bool` of the
result records whether the native layer was invoked. -/
def FileMedia.create (fs : FS) (path : Bytes) (fd : Nat) (gpStatus : Int) :
    FS × Bool × Except ErrorKind FileMedia :=
  if path.contains 0 then
    (fs, false, .error (from_libgphoto2 GP_ERROR_BAD_PARAMETERS))
  else
    match fs.lookup path with
    | some _ => (fs, false, .error (from_libgphoto2 GP_ERROR_FILE_EXISTS))
    | none =>
      let fs' : FS := ⟨(path, []) :: fs.files⟩
      if gpStatus = GP_OK then (fs', true, .ok ⟨fd⟩)
      else (fs', true, .error (from_libgphoto2 gpStatus))

/-- `FileMedia::new` (media.rs:57) over the native `gp_file_new` status. -/
def FileMedia.new (status : Int) (handle : Nat) : Except ErrorKind FileMedia :=
  if status = GP_OK then .ok ⟨handle⟩ else .error (from_libgphoto2 status)

/-- `FileMedia::from_file` (media.rs:70) over the native
`gp_file_new_from_fd` status; consumes the `File` and hands its raw
descriptor over. -/
def FileMedia.from_file (status : Int) (fd : Nat) : Except ErrorKind FileMedia :=
  if status = GP_OK then .ok ⟨fd⟩ else .error (from_libgphoto2 status)

/-- `FileMedia::from_raw_fd` (media.rs:93) over the native
`gp_file_new_from_fd` status. -/
def FileMedia.from_raw_fd (status : Int) (fd : Nat) : Except ErrorKind FileMedia :=
  if status = GP_OK then .ok ⟨fd⟩ else .error (from_libgphoto2 status)

/-- `FileMedia::data` (media.rs:109) over the result of the native
`gp_file_get_data_and_size` call (a non-OK status or the byte view). -/
def FileMedia.data (native : Except Int Bytes) : Except ErrorKind Bytes :=
  match native with
  | .ok bytes => .ok bytes
  | .error code => .error (from_libgphoto2 code)

/-! ## Camera operations (`src/camera.rs`) -/

/-- A file path on the camera's own storage (`gphoto2::CameraFilePath`):
folder and base name, a plain value copied out of native memory. -/
structure CameraFilePath where
  folder : Bytes
  name : Bytes
deriving DecidableEq, Repr

/-- A storage descriptor copied out of native memory (opaque for these
claims). -/
structure Storage where
  id : Nat
deriving DecidableEq, Repr

/-- The opaque native `GPPortInfo` pointer borrowed from a camera. -/
structure GPPortInfo where
  id : Nat
deriving DecidableEq, Repr

/-- `Port` wrapper (port.rs:57): a borrowed view over a `GPPortInfo`. -/
structure Port where
  inner : GPPortInfo
deriving DecidableEq, Repr

/-- `port::from_libgphoto2` (port.rs:106): wrap the borrowed pointer. -/
def port_from_libgphoto2 (info : GPPortInfo) : Port := ⟨info⟩

/-- The native `CameraAbilities` descriptor (opaque for these claims). -/
structure CameraAbilities where
  id : Nat
deriving DecidableEq, Repr

/-- `Camera::new` (camera.rs:28) over the native `gp_camera_new` status;
`handle` stands for the pointer the native call writes on success. -/
def Camera.new (status : Int) (handle : Nat) : Except ErrorKind Nat :=
  if status = GP_OK then .ok handle else .error (from_libgphoto2 status)

/-- `Camera::init` (camera.rs:41) over the native `gp_camera_init`
status. -/
def Camera.init (status : Int) : Except ErrorKind Unit := checkedCall status

/-- `Camera::autodetect` (camera.rs:50): `CameraList::new()?` (native
`gp_list_new`, status `newStatus`) then `try_unsafe!` on
`gp_camera_autodetect` (status `detStatus`); on success the filled list is
returned. -/
def Camera.autodetect (newStatus detStatus : Int) (l : NativeCameraList) :
    Except ErrorKind NativeCameraList :=
  if newStatus = GP_OK then
    if detStatus = GP_OK then .ok l else .error (from_libgphoto2 detStatus)
  else .error (from_libgphoto2 newStatus)

/-- `Camera::capture_image` (camera.rs:62) over the native
`gp_camera_capture` status and the `CameraFilePath` it fills. -/
def Camera.capture_image (status : Int) (path : CameraFilePath) :
    Except ErrorKind CameraFilePath :=
  if status = GP_OK then .ok path else .error (from_libgphoto2 status)

/-- `Camera::download` (camera.rs:76) over the native `gp_camera_file_get`
status. -/
def Camera.download (status : Int) : Except ErrorKind Unit := checkedCall status

/-- `Camera::capture_preview` (camera.rs:90) over the native
`gp_camera_capture_preview` status. -/
def Camera.capture_preview (status : Int) : Except ErrorKind Unit :=
  checkedCall status

/-- `Camera::storage` (camera.rs:123) over the native
`gp_camera_get_storageinfo` status and the buffer it hands over. -/
def Camera.storage (status : Int) (storages : List Storage) :
    Except ErrorKind (List Storage) :=
  if status = GP_OK then .ok storages else .error (from_libgphoto2 status)

/-- `Camera::port` (camera.rs:99): `assert_eq!(GP_OK, ...)` on the native
`gp_camera_get_port_info` status — a failing status aborts the process
(modelled by `none`), it is never surfaced as an error value; the return
type has no error alternative. -/
def Camera.port (status : Int) (info : GPPortInfo) : Option Port :=
  if status = GP_OK then some (port_from_libgphoto2 info) else none

/-- `Camera::abilities` (camera.rs:110): `assert_eq!(GP_OK, ...)` on the
native `gp_camera_get_abilities` status — a failing status aborts (`none`),
never an error value. -/
def Camera.abilities (status : Int) (a : CameraAbilities) :
    Option CameraAbilities :=
  if status = GP_OK then some a else none

/-! ## Ownership traces (the four `Drop` impls and the early-return path of
`Camera::autodetect`) -/

/-- Calls into the native layer that acquire or release an owned handle,
plus the autodetect fill call. -/
inductive NativeCall where
  | gp_camera_unref : NativeCall
  | gp_list_new : NativeCall
  | gp_list_unref : NativeCall
  | gp_file_unref : NativeCall
  | gp_port_info_list_free : NativeCall
  | gp_camera_autodetect : NativeCall
deriving DecidableEq, Repr

/-- `impl Drop for Camera` (camera.rs:18): the destructor body. -/
def Camera.dropTrace : List NativeCall := [.gp_camera_unref]

/-- `impl Drop for CameraList` (camera.rs:200): the destructor body. -/
def CameraList.dropTrace : List NativeCall := [.gp_list_unref]

/-- `impl Drop for FileMedia` (media.rs:22): the destructor body. -/
def FileMedia.dropTrace : List NativeCall := [.gp_file_unref]

/-- `impl Drop for PortList` (port.rs:117): the destructor body. -/
def PortList.dropTrace : List NativeCall := [.gp_port_info_list_free]

/-- The native calls `Camera::autodetect` issues, with Rust drop semantics
made explicit: a failing `gp_list_new` means no list handle was created and
the function returns early with no release; after a successful
`gp_list_new`, a failing `gp_camera_autodetect` returns early and the local
`CameraList` is dropped on the way out; on success the list is moved to the
caller. -/
def Camera.autodetectTrace (newStatus detStatus : Int) :
    List NativeCall × Except ErrorKind Unit :=
  if newStatus = GP_OK then
    if detStatus = GP_OK then
      ([.gp_list_new, .gp_camera_autodetect], .ok ())
    else
      ([.gp_list_new, .gp_camera_autodetect] ++ CameraList.dropTrace,
       .error (from_libgphoto2 detStatus))
  else ([.gp_list_new], .error (from_libgphoto2 newStatus))

/-- Full lifecycle of one `Camera::autodetect` call: the calls made inside
the function, followed by the caller eventually dropping a successfully
returned list. -/
def Camera.autodetectLifecycle (newStatus detStatus : Int) : List NativeCall :=
  (Camera.autodetectTrace newStatus detStatus).1 ++
    (match (Camera.autodetectTrace newStatus detStatus).2 with
     | .ok _ => CameraList.dropTrace
     | .error _ => [])

/-- Decidable equality on `Except`, used to evaluate the embedded operations
at concrete inputs. -/
instance {ε α : Type} [DecidableEq ε] [DecidableEq α] :
    DecidableEq (Except ε α) := fun a b =>
  match a, b with
  | .ok x, .ok y =>
    if h : x = y then .isTrue (h ▸ rfl)
    else .isFalse (fun hh => h (by injection hh))
  | .error x, .error y =>
    if h : x = y then .isTrue (h ▸ rfl)
    else .isFalse (fun hh => h (by injection hh))
  | .ok _, .error _ => .isFalse (fun hh => Except.noConfusion hh)
  | .error _, .ok _ => .isFalse (fun hh => Except.noConfusion hh)

/-! ## Theorems -/

/-- The error translator sends `GP_ERROR_BAD_PARAMETERS` to
`BadParameters`. -/
theorem from_libgphoto2_bad_parameters :
    from_libgphoto2 GP_ERROR_BAD_PARAMETERS = .BadParameters := by decide

/-- The error translator sends `GP_ERROR_FILE_EXISTS` to `FileExists`. -/
theorem from_libgphoto2_file_exists :
    from_libgphoto2 GP_ERROR_FILE_EXISTS = .FileExists := by decide

/-- The error translator sends `GP_ERROR_CORRUPTED_DATA` to
`CorruptedData`. -/
theorem from_libgphoto2_corrupted :
    from_libgphoto2 GP_ERROR_CORRUPTED_DATA = .CorruptedData := by decide

/-- The error translator sends `GP_ERROR_UNKNOWN_PORT` (the native
lookup-miss code) to `NotFound`. -/
theorem from_libgphoto2_unknown_port :
    from_libgphoto2 GP_ERROR_UNKNOWN_PORT = .NotFound := by decide

/-- A non-OK status through the checked-call helper becomes exactly the
translated error value. -/
theorem checkedCall_ne_ok (st : Int) (h : st ≠ GP_OK) :
    checkedCall st = .error (from_libgphoto2 st) := by
  simp [checkedCall, h]

/-- C1: refuted — the source of `CameraList::value_cstr` (camera.rs:258)
calls the native name accessor `gp_list_get_name`, not the value accessor.
On a list whose entry 0 stores name `"Can"` and a distinct value `"usb"`,
`value_cstr 0` and `value 0` return the name bytes, while the native value
accessor holds the different value bytes, contradicting both the claim and
the function's own doc comment ("Get the value of the ith entry"). -/
theorem value_cstr_reads_name_accessor :
    CameraList.value_cstr [([67, 97, 110], [117, 115, 98])] 0 = .ok [67, 97, 110]
    ∧ CameraList.value [([67, 97, 110], [117, 115, 98])] 0 = .ok [67, 97, 110]
    ∧ gp_list_get_value [([67, 97, 110], [117, 115, 98])] 0 = .ok [117, 115, 98]
    ∧ ([67, 97, 110] : Bytes) ≠ [117, 115, 98] := by decide

/-- C2: `Camera::summary`, `Camera::manual` and `Camera::about_driver`
return `CorruptedData` on every native text blob whose NUL-terminated bytes
are not valid UTF-8 (never a lossily converted string), and return exactly
those bytes on every valid-UTF-8 blob. -/
theorem camera_text_utf8_exact (buffer : Bytes) :
    (validUtf8 (cameraTextBytes buffer) = false →
      Camera.summary (.ok buffer) = .error .CorruptedData
      ∧ Camera.manual (.ok buffer) = .error .CorruptedData
      ∧ Camera.about_driver (.ok buffer) = .error .CorruptedData)
    ∧ (validUtf8 (cameraTextBytes buffer) = true →
      Camera.summary (.ok buffer) = .ok (cameraTextBytes buffer)
      ∧ Camera.manual (.ok buffer) = .ok (cameraTextBytes buffer)
      ∧ Camera.about_driver (.ok buffer) = .ok (cameraTextBytes buffer)) := by
  constructor
  · intro h
    refine ⟨?_, ?_, ?_⟩ <;>
      simp [Camera.summary, Camera.manual, Camera.about_driver,
        camera_text_to_string, h, from_libgphoto2_corrupted]
  · intro h
    refine ⟨?_, ?_, ?_⟩ <;>
      simp [Camera.summary, Camera.manual, Camera.about_driver,
        camera_text_to_string, h]

/-- Concrete instance of C2: the blob `[0xFF, 0]` is rejected as
`CorruptedData` and the ASCII blob `"hi\0"` comes back byte-exact. -/
theorem camera_text_utf8_exact_witness :
    Camera.summary (.ok [0xFF, 0]) = .error .CorruptedData
    ∧ Camera.manual (.ok [104, 105, 0]) = .ok [104, 105] :=
  ⟨((camera_text_utf8_exact [0xFF, 0]).1 (by decide)).1,
   ((camera_text_utf8_exact [104, 105, 0]).2 (by decide)).2.1⟩

/-- C3: `FileMedia::create` has exclusive-create semantics: on a path that
already exists (existing disk paths contain no NUL byte) it returns
`FileExists`, invokes no native call, and leaves the disk state — in
particular the existing contents — unchanged; it succeeds only when the path
did not previously exist, and then the new file is created empty and the
sink owns the descriptor the kernel handed out. -/
theorem file_media_create_exclusive (fs : FS) (path : Bytes) (fd : Nat)
    (st : Int) (c : Bytes) (m : FileMedia) :
    ((0 : Nat) ∉ path → fs.lookup path = some c →
      FileMedia.create fs path fd st = (fs, false, .error .FileExists))
    ∧ ((FileMedia.create fs path fd st).2.2 = .ok m →
      fs.lookup path = none
      ∧ ((FileMedia.create fs path fd st).1).lookup path = some []
      ∧ m.fd = fd) := by
  constructor
  · intro h0 hl
    simp [FileMedia.create, h0, hl, from_libgphoto2_file_exists]
  · intro h
    by_cases h0 : (0 : Nat) ∈ path
    · simp [FileMedia.create, h0] at h
    · rcases hl : fs.lookup path with _ | c'
      · by_cases hst : st = GP_OK
        · simp [FileMedia.create, h0, hl, hst] at h
          have hl' : fsFind fs.files path = none := hl
          refine ⟨rfl, ?_, ?_⟩
          · simp [FileMedia.create, h0, hl', hst, FS.lookup, fsFind]
          · subst h
            rfl
        · simp [FileMedia.create, h0, hl, hst] at h
      · simp [FileMedia.create, h0, hl] at h

/-- Concrete instance of C3: creating over the occupied path `[97]` yields
`FileExists` and the one-file disk is untouched; creating over the same path
on an empty disk succeeds, stores an empty file, and the sink owns
descriptor 5. -/
theorem file_media_create_exclusive_witness :
    FileMedia.create ⟨[([97], [98])]⟩ [97] 5 0
      = (⟨[([97], [98])]⟩, false, .error .FileExists)
    ∧ (FS.lookup ⟨[]⟩ [97] = none
      ∧ (FileMedia.create ⟨[]⟩ [97] 5 0).1.lookup [97] = some []
      ∧ (5 : Nat) = 5) :=
  ⟨(file_media_create_exclusive ⟨[([97], [98])]⟩ [97] 5 0 [98] ⟨5⟩).1
      (by decide) (by decide),
   (file_media_create_exclusive ⟨[]⟩ [97] 5 0 [] ⟨5⟩).2 (by decide)⟩

/-- C4: a caller-supplied string with an embedded NUL byte makes
`PortList::lookup_name`, `PortList::lookup_path` and `FileMedia::create`
fail `CString::new` and return `BadParameters` with the native layer not
invoked (`false` flag) and the receiver state returned unchanged. -/
theorem nul_rejected_before_native (s : PortListState) (nm pth : Bytes)
    (i j : Int) (fs : FS) (p : Bytes) (fd : Nat) (st : Int)
    (hn : (0 : Nat) ∈ nm) (hp : (0 : Nat) ∈ pth) (hq : (0 : Nat) ∈ p) :
    PortList.lookup_name s nm i = (s, false, .error .BadParameters)
    ∧ PortList.lookup_path s pth j = (s, false, .error .BadParameters)
    ∧ FileMedia.create fs p fd st = (fs, false, .error .BadParameters) := by
  refine ⟨?_, ?_, ?_⟩ <;>
    simp [PortList.lookup_name, PortList.lookup_path, FileMedia.create,
      hn, hp, hq, from_libgphoto2_bad_parameters]

/-- Concrete instance of C4: the one-byte string `[0]` is rejected by all
three operations without reaching the native layer. -/
theorem nul_rejected_before_native_witness :
    PortList.lookup_name [] [0] 0 = ([], false, .error .BadParameters)
    ∧ PortList.lookup_path [] [0] 0 = ([], false, .error .BadParameters)
    ∧ FileMedia.create ⟨[]⟩ [0] 3 0 = (⟨[]⟩, false, .error .BadParameters) :=
  nul_rejected_before_native [] [0] [0] 0 0 ⟨[]⟩ [0] 3 0
    (by decide) (by decide) (by decide)

/-- C5: every fallible public operation turns a non-OK native status code
into an error value returned to the caller (never an abort); the only
aborts are on the internally controlled invariant that a native count call
returns a negative value, where `CameraList::len` and `PortList::len` hit
`panic!()` (modelled `none`) instead of returning. -/
theorem non_ok_status_becomes_error :
    (∀ (st : Int) (hdl : Nat), st ≠ GP_OK →
      Camera.new st hdl = .error (from_libgphoto2 st))
    ∧ (∀ st : Int, st ≠ GP_OK → Camera.init st = .error (from_libgphoto2 st))
    ∧ (∀ (ns ds : Int) (l : NativeCameraList), ns ≠ GP_OK →
      Camera.autodetect ns ds l = .error (from_libgphoto2 ns))
    ∧ (∀ (ns ds : Int) (l : NativeCameraList), ns = GP_OK → ds ≠ GP_OK →
      Camera.autodetect ns ds l = .error (from_libgphoto2 ds))
    ∧ (∀ (st : Int) (p : CameraFilePath), st ≠ GP_OK →
      Camera.capture_image st p = .error (from_libgphoto2 st))
    ∧ (∀ st : Int, st ≠ GP_OK → Camera.download st = .error (from_libgphoto2 st))
    ∧ (∀ st : Int, st ≠ GP_OK →
      Camera.capture_preview st = .error (from_libgphoto2 st))
    ∧ (∀ (st : Int) (v : List Storage), st ≠ GP_OK →
      Camera.storage st v = .error (from_libgphoto2 st))
    ∧ (∀ st : Int, Camera.summary (.error st) = .error (from_libgphoto2 st))
    ∧ (∀ st : Int, Camera.manual (.error st) = .error (from_libgphoto2 st))
    ∧ (∀ st : Int, Camera.about_driver (.error st) = .error (from_libgphoto2 st))
    ∧ (∀ (st : Int) (hdl : Nat), st ≠ GP_OK →
      FileMedia.new st hdl = .error (from_libgphoto2 st))
    ∧ (∀ (st : Int) (fd : Nat), st ≠ GP_OK →
      FileMedia.from_file st fd = .error (from_libgphoto2 st))
    ∧ (∀ (st : Int) (fd : Nat), st ≠ GP_OK →
      FileMedia.from_raw_fd st fd = .error (from_libgphoto2 st))
    ∧ (∀ st : Int, FileMedia.data (.error st) = .error (from_libgphoto2 st))
    ∧ (∀ (fs : FS) (p : Bytes) (fd : Nat) (st : Int),
      (0 : Nat) ∉ p → fs.lookup p = none → st ≠ GP_OK →
      (FileMedia.create fs p fd st).2.2 = .error (from_libgphoto2 st))
    ∧ (∀ (st : Int) (hdl : Nat), st ≠ GP_OK →
      PortList.new st hdl = .error (from_libgphoto2 st))
    ∧ (∀ st : Int, st ≠ GP_OK → PortList.load st = .error (from_libgphoto2 st))
    ∧ (∀ (s : PortListState) (nm : Bytes) (i : Int), (0 : Nat) ∉ nm → i < 0 →
      (PortList.lookup_name s nm i).2.2 = .error (from_libgphoto2 i))
    ∧ (∀ (s : PortListState) (p : Bytes) (i : Int), (0 : Nat) ∉ p → i < 0 →
      (PortList.lookup_path s p i).2.2 = .error (from_libgphoto2 i))
    ∧ (∀ (l : NativeCameraList) (i : Nat) (e : Int),
      gp_list_get_name l (usizeToCInt i) = .error e →
      CameraList.name_cstr l i = .error (from_libgphoto2 e)
      ∧ CameraList.name l i = .error (from_libgphoto2 e)
      ∧ CameraList.value_cstr l i = .error (from_libgphoto2 e)
      ∧ CameraList.value l i = .error (from_libgphoto2 e))
    ∧ (∀ c : Int, c < 0 →
      CameraList.lenFromCount c = none ∧ PortList.lenFromCount c = none)
    ∧ (∀ c : Int, 0 ≤ c →
      CameraList.lenFromCount c = some c.toNat
      ∧ PortList.lenFromCount c = some c.toNat) := by
  refine ⟨?_, ?_, ?_, ?_, ?_, ?_, ?_, ?_, ?_, ?_, ?_, ?_, ?_, ?_, ?_, ?_,
    ?_, ?_, ?_, ?_, ?_, ?_, ?_⟩
  · intro st hdl h
    simp [Camera.new, h]
  · intro st h
    simp [Camera.init, checkedCall, h]
  · intro ns ds l h
    simp [Camera.autodetect, h]
  · intro ns ds l hn h
    simp [Camera.autodetect, hn, h]
  · intro st p h
    simp [Camera.capture_image, h]
  · intro st h
    simp [Camera.download, checkedCall, h]
  · intro st h
    simp [Camera.capture_preview, checkedCall, h]
  · intro st v h
    simp [Camera.storage, h]
  · intro st
    rfl
  · intro st
    rfl
  · intro st
    rfl
  · intro st hdl h
    simp [FileMedia.new, h]
  · intro st fd h
    simp [FileMedia.from_file, h]
  · intro st fd h
    simp [FileMedia.from_raw_fd, h]
  · intro st
    rfl
  · intro fs p fd st h0 hl h
    simp [FileMedia.create, h0, hl, h]
  · intro st hdl h
    simp [PortList.new, h]
  · intro st h
    simp [PortList.load, checkedCall, h]
  · intro s nm i h0 h
    simp [PortList.lookup_name, h0, Int.not_le.mpr h]
  · intro s p i h0 h
    simp [PortList.lookup_path, h0, Int.not_le.mpr h]
  · intro l i e h
    refine ⟨?_, ?_, ?_, ?_⟩ <;>
      simp [CameraList.name_cstr, CameraList.value_cstr, CameraList.name,
        CameraList.value, h, Except.map]
  · intro c h
    constructor <;> simp [CameraList.lenFromCount, PortList.lenFromCount, h]
  · intro c h
    constructor <;>
      simp [CameraList.lenFromCount, PortList.lenFromCount, Int.not_lt.mpr h]

/-- Concrete instance of C5: status `-1` through `Camera::new` and
`Camera::init` becomes an error value, and a negative native count makes
both `len` implementations abort rather than return. -/
theorem non_ok_status_becomes_error_witness :
    Camera.new (-1) 7 = .error (from_libgphoto2 (-1))
    ∧ Camera.init (-1) = .error (from_libgphoto2 (-1))
    ∧ (CameraList.lenFromCount (-1) = none ∧ PortList.lenFromCount (-1) = none) :=
  ⟨non_ok_status_becomes_error.1 (-1) 7 (by decide),
   non_ok_status_becomes_error.2.1 (-1) (by decide),
   non_ok_status_becomes_error.2.2.2.2.2.2.2.2.2.2.2.2.2.2.2.2.2.2.2.2.2.1
     (-1) (by decide)⟩

/-- The `usize` to `c_int` truncation is the identity below `2 ^ 31`. -/
theorem usizeToCInt_small (i : Nat) (h : i < 2 ^ 31) : usizeToCInt i = i := by
  simp only [usizeToCInt, Nat.mod_eq_of_lt (show i < 2 ^ 32 from by omega)]
  rw [if_pos h]

/-- C6 counterexample: on a one-entry list (so `len() = 1`), the
out-of-range index `2 ^ 32` does not produce an error — the source's
`i as libc::c_int` truncation (64-bit `usize`, 32-bit `c_int`) maps it to
native index 0, so `name_cstr`/`name` succeed with entry 0's name. -/
theorem name_out_of_range_alias_succeeds :
    CameraList.len [([65], [66])] = some 1
    ∧ 1 ≤ (2 ^ 32 : Nat)
    ∧ CameraList.name_cstr [([65], [66])] (2 ^ 32) = .ok [65]
    ∧ CameraList.name [([65], [66])] (2 ^ 32) = .ok [65] := by decide

/-- C6 amended: `len()` reports the native count `N`; `name(i)`/`value(i)`
succeed exactly when the index, truncated to `c_int`, lands in `[0, N)` and
return an error value (never a panic) otherwise; in particular, for every
index below `2 ^ 31` — where the truncation is the identity — `name(i)` and
`value(i)` succeed for `i` in `[0, N)` and every out-of-range index,
`name(N)` included, returns an error. -/
theorem camera_list_bounds_amended (l : NativeCameraList) (i : Nat) :
    CameraList.len l = some l.length
    ∧ (0 ≤ usizeToCInt i → usizeToCInt i < (l.length : Int) →
      (∃ s, CameraList.name_cstr l i = .ok s)
      ∧ (∃ s, CameraList.value_cstr l i = .ok s)
      ∧ (∃ s, CameraList.name l i = .ok s)
      ∧ (∃ s, CameraList.value l i = .ok s))
    ∧ ((usizeToCInt i < 0 ∨ (l.length : Int) ≤ usizeToCInt i) →
      (∃ e, CameraList.name_cstr l i = .error e)
      ∧ (∃ e, CameraList.name l i = .error e)
      ∧ (∃ e, CameraList.value_cstr l i = .error e)
      ∧ (∃ e, CameraList.value l i = .error e))
    ∧ (i < 2 ^ 31 → i < l.length →
      (∃ s, CameraList.name_cstr l i = .ok s)
      ∧ (∃ s, CameraList.value_cstr l i = .ok s)
      ∧ (∃ s, CameraList.name l i = .ok s)
      ∧ (∃ s, CameraList.value l i = .ok s))
    ∧ (i < 2 ^ 31 → l.length ≤ i →
      (∃ e, CameraList.name_cstr l i = .error e)
      ∧ (∃ e, CameraList.name l i = .error e)
      ∧ (∃ e, CameraList.value_cstr l i = .error e)
      ∧ (∃ e, CameraList.value l i = .error e)) := by
  have hok : ∀ hl : 0 ≤ usizeToCInt i ∧ usizeToCInt i < (l.length : Int),
      gp_list_get_name l (usizeToCInt i)
        = .ok ((l.getD (usizeToCInt i).toNat ([], [])).1) := by
    intro hl
    simp [gp_list_get_name, hl.1, hl.2]
  have herr : ∀ _ : usizeToCInt i < 0 ∨ (l.length : Int) ≤ usizeToCInt i,
      gp_list_get_name l (usizeToCInt i) = .error GP_ERROR_BAD_PARAMETERS := by
    intro hl
    unfold gp_list_get_name
    rw [if_neg (by omega)]
  have hin : 0 ≤ usizeToCInt i → usizeToCInt i < (l.length : Int) →
      (∃ s, CameraList.name_cstr l i = .ok s)
      ∧ (∃ s, CameraList.value_cstr l i = .ok s)
      ∧ (∃ s, CameraList.name l i = .ok s)
      ∧ (∃ s, CameraList.value l i = .ok s) := by
    intro h1 h2
    refine ⟨?_, ?_, ?_, ?_⟩ <;>
      simp [CameraList.name_cstr, CameraList.value_cstr, CameraList.name,
        CameraList.value, hok ⟨h1, h2⟩, Except.map]
  have hout : (usizeToCInt i < 0 ∨ (l.length : Int) ≤ usizeToCInt i) →
      (∃ e, CameraList.name_cstr l i = .error e)
      ∧ (∃ e, CameraList.name l i = .error e)
      ∧ (∃ e, CameraList.value_cstr l i = .error e)
      ∧ (∃ e, CameraList.value l i = .error e) := by
    intro h1
    refine ⟨?_, ?_, ?_, ?_⟩ <;>
      simp [CameraList.name_cstr, CameraList.value_cstr, CameraList.name,
        CameraList.value, herr h1, Except.map]
  refine ⟨?_, hin, hout, ?_, ?_⟩
  · simp [CameraList.len, CameraList.lenFromCount, gp_list_count]
  · intro h1 h2
    exact hin (by rw [usizeToCInt_small i h1]; positivity)
      (by rw [usizeToCInt_small i h1]; exact_mod_cast h2)
  · intro h1 h2
    exact hout (Or.inr (by rw [usizeToCInt_small i h1]; exact_mod_cast h2))

/-- Concrete instance of the amended C6: on a one-entry list, index 0
succeeds and index 1 (`= len()`) errors. -/
theorem camera_list_bounds_amended_witness :
    (∃ s, CameraList.name_cstr [([65], [66])] 0 = .ok s)
    ∧ (∃ e, CameraList.name_cstr [([65], [66])] 1 = .error e) :=
  ⟨((camera_list_bounds_amended [([65], [66])] 0).2.2.2.1
      (by decide) (by decide)).1,
   ((camera_list_bounds_amended [([65], [66])] 1).2.2.2.2
      (by decide) (by decide)).1⟩

/-- C7: for a NUL-free name (resp. path), `PortList::lookup_name`
(resp. `lookup_path`) returns `Ok(i)` with `i` the non-negative position
index reported by the native lookup, and returns an error exactly when the
native lookup reports a negative status — `NotFound` when the native layer
reports the lookup-miss code `GP_ERROR_UNKNOWN_PORT`. -/
theorem lookup_returns_native_index (s : PortListState) (nm pth : Bytes)
    (i j : Int) (hn : (0 : Nat) ∉ nm) (hp : (0 : Nat) ∉ pth) :
    (0 ≤ i → PortList.lookup_name s nm i = (s, true, .ok i.toNat))
    ∧ (i < 0 →
      PortList.lookup_name s nm i = (s, true, .error (from_libgphoto2 i)))
    ∧ (i = GP_ERROR_UNKNOWN_PORT →
      PortList.lookup_name s nm i = (s, true, .error .NotFound))
    ∧ (0 ≤ j → PortList.lookup_path s pth j = (s, true, .ok j.toNat))
    ∧ (j < 0 →
      PortList.lookup_path s pth j = (s, true, .error (from_libgphoto2 j)))
    ∧ (j = GP_ERROR_UNKNOWN_PORT →
      PortList.lookup_path s pth j = (s, true, .error .NotFound)) := by
  refine ⟨?_, ?_, ?_, ?_, ?_, ?_⟩
  · intro h
    simp [PortList.lookup_name, hn, h]
  · intro h
    simp [PortList.lookup_name, hn, Int.not_le.mpr h]
  · intro h
    subst h
    rw [show PortList.lookup_name s nm GP_ERROR_UNKNOWN_PORT
        = (s, true, .error (from_libgphoto2 GP_ERROR_UNKNOWN_PORT)) from by
      simp [PortList.lookup_name, hn, GP_ERROR_UNKNOWN_PORT],
      from_libgphoto2_unknown_port]
  · intro h
    simp [PortList.lookup_path, hp, h]
  · intro h
    simp [PortList.lookup_path, hp, Int.not_le.mpr h]
  · intro h
    subst h
    rw [show PortList.lookup_path s pth GP_ERROR_UNKNOWN_PORT
        = (s, true, .error (from_libgphoto2 GP_ERROR_UNKNOWN_PORT)) from by
      simp [PortList.lookup_path, hp, GP_ERROR_UNKNOWN_PORT],
      from_libgphoto2_unknown_port]

/-- Concrete instance of C7: native index 3 comes back as `Ok(3)` and the
native lookup-miss status `-5` comes back as `NotFound`. -/
theorem lookup_returns_native_index_witness :
    PortList.lookup_name [] [110] 3 = ([], true, .ok 3)
    ∧ PortList.lookup_path [] [110] (-5) = ([], true, .error .NotFound) :=
  ⟨(lookup_returns_native_index [] [110] [110] 3 (-5)
      (by decide) (by decide)).1 (by decide),
   (lookup_returns_native_index [] [110] [110] 3 (-5)
      (by decide) (by decide)).2.2.2.2.2 (by decide)⟩

/-- C8: `Camera::port` and `Camera::abilities` are non-fallible by
contract: when the native call succeeds they return the descriptor, and a
non-OK native status trips the `assert_eq!` — an abort (modelled `none`),
never a user-facing error value (the return types have no error
alternative). -/
theorem port_abilities_assert (st : Int) (info : GPPortInfo)
    (a : CameraAbilities) :
    (st = GP_OK →
      Camera.port st info = some (port_from_libgphoto2 info)
      ∧ Camera.abilities st a = some a)
    ∧ (st ≠ GP_OK →
      Camera.port st info = none ∧ Camera.abilities st a = none) := by
  constructor
  · intro h
    constructor <;> simp [Camera.port, Camera.abilities, h]
  · intro h
    constructor <;> simp [Camera.port, Camera.abilities, h]

/-- Concrete instance of C8: status 0 yields the descriptors, status `-1`
aborts both reads. -/
theorem port_abilities_assert_witness :
    (Camera.port 0 ⟨1⟩ = some (port_from_libgphoto2 ⟨1⟩)
      ∧ Camera.abilities 0 ⟨2⟩ = some ⟨2⟩)
    ∧ (Camera.port (-1) ⟨1⟩ = none ∧ Camera.abilities (-1) ⟨2⟩ = none) :=
  ⟨(port_abilities_assert 0 ⟨1⟩ ⟨2⟩).1 (by decide),
   (port_abilities_assert (-1) ⟨1⟩ ⟨2⟩).2 (by decide)⟩

/-- C9: each owning handle's destructor issues exactly one matching release
call to the native layer (the four `Drop` impls are singleton traces of the
matching unref/free), and across the whole `Camera::autodetect` lifecycle —
including the early error return after a successful `gp_list_new` — the
number of `gp_list_unref` calls equals the number of successfully created
list handles: one when `gp_list_new` succeeded, zero when it failed. -/
theorem drop_release_exactly_once :
    Camera.dropTrace.count NativeCall.gp_camera_unref = 1
    ∧ Camera.dropTrace.length = 1
    ∧ CameraList.dropTrace.count NativeCall.gp_list_unref = 1
    ∧ CameraList.dropTrace.length = 1
    ∧ FileMedia.dropTrace.count NativeCall.gp_file_unref = 1
    ∧ FileMedia.dropTrace.length = 1
    ∧ PortList.dropTrace.count NativeCall.gp_port_info_list_free = 1
    ∧ PortList.dropTrace.length = 1
    ∧ ∀ ns ds : Int,
      (Camera.autodetectLifecycle ns ds).count NativeCall.gp_list_unref
        = if ns = GP_OK then 1 else 0 := by
  refine ⟨by decide, by decide, by decide, by decide, by decide, by decide,
    by decide, by decide, ?_⟩
  intro ns ds
  by_cases hns : ns = GP_OK <;> by_cases hds : ds = GP_OK <;>
    simp [Camera.autodetectLifecycle, Camera.autodetectTrace,
      CameraList.dropTrace, hns, hds]

/-- C10: the allocating accessors are the lossy-conversion refinements of
the `CStr` accessors: `name(i)` (resp. `value(i)`) succeeds exactly when
`name_cstr(i)` (resp. `value_cstr(i)`) does, and on success equals the
lossy UTF-8 conversion of its bytes. -/
theorem string_accessors_refine_cstr (l : NativeCameraList) (i : Nat) :
    CameraList.name l i = (CameraList.name_cstr l i).map toStringLossy
    ∧ CameraList.value l i = (CameraList.value_cstr l i).map toStringLossy
    ∧ (∀ s, CameraList.name_cstr l i = .ok s →
      CameraList.name l i = .ok (toStringLossy s))
    ∧ (∀ e, CameraList.name_cstr l i = .error e →
      CameraList.name l i = .error e)
    ∧ (∀ s, CameraList.value_cstr l i = .ok s →
      CameraList.value l i = .ok (toStringLossy s))
    ∧ (∀ e, CameraList.value_cstr l i = .error e →
      CameraList.value l i = .error e) := by
  refine ⟨rfl, rfl, ?_, ?_, ?_, ?_⟩ <;> intro x h <;>
    simp [CameraList.name, CameraList.value, h, Except.map]

/-- Concrete instance of C10: entry 0's name bytes `[255]` are not UTF-8
and come back through `name` as the replacement character; ASCII value
bytes come back unchanged through `value`. -/
theorem string_accessors_refine_cstr_witness :
    CameraList.name [([255], [66])] 0 = .ok (toStringLossy [255])
    ∧ CameraList.value [([65], [66])] 0 = .ok (toStringLossy [65]) :=
  ⟨(string_accessors_refine_cstr [([255], [66])] 0).2.2.1 [255] (by decide),
   (string_accessors_refine_cstr [([65], [66])] 0).2.2.2.2.1 [65] (by decide)⟩

end Gphoto
